import Mathlib

/-!
Verification of the Jobbergate excerpt: a shallow embedding of the pagination helper,
the file-validation helpers, the smart-template CRUD service, and the CLI application
subcommands, together with proofs of the behavioural properties stated in the spec.
-/

namespace Jobbergate

/-! ### Pagination

The module `jobbergate_api/pagination.py` is not part of the excerpt; only its tests are.
The definitions below are therefore modelled from the spec (section 4.2 and the testable
properties) and the observable behaviour recorded in `tests/test_pagination.py`. -/

/-- Pagination state: an optional page number and an optional page size, both absent when
pagination was not requested. -/
structure Pagination where
  page : Option Int
  per_page : Option Int
deriving Repr, DecidableEq

/-- Modelled from the spec: the constructor of `jobbergate_api.pagination.Pagination`
(absent from the excerpt) validates `page >= 0` and `per_page > 0`, raising a
`ValueError` otherwise; the error messages are those matched in
`tests/test_pagination.py`. -/
def Pagination.make (page : Option Int) (per_page : Option Int) : Except String Pagination :=
  if page.getD 0 < 0 then
    Except.error "page parameter must be greater than or equal to zero"
  else if per_page.getD 1 ≤ 0 then
    Except.error "per_page parameter must be greater than zero"
  else
    Except.ok (Pagination.mk page per_page)

/-- A default-constructed `Pagination()`: pagination was not requested. -/
def Pagination.default : Pagination := Pagination.mk none none

/-- Metadata packaged alongside a result slice: the unpaginated row count and the echoed
page / page-size parameters (absent when pagination was not requested). -/
structure ResponseMetadata where
  total : Nat
  page : Option Int
  per_page : Option Int
deriving Repr, DecidableEq

/-- The envelope combining a result list with its metadata. -/
structure ResponseEnvelope (α : Type) where
  results : List α
  metadata : ResponseMetadata
deriving Repr, DecidableEq

/-- Modelled from the spec: `jobbergate_api.pagination.package_response` (absent from the
excerpt) computes a bounded slice of the ordered query result — offset `page * per_page`,
limit `per_page` — and reports the unpaginated row count alongside; when pagination was
not requested the whole result is returned and the page / page-size metadata stay absent.
The ordered query result is `rows`. -/
def package_response {α : Type} (rows : List α) (pg : Pagination) : ResponseEnvelope α :=
  let results :=
    match pg.page, pg.per_page with
    | some p, some pp => (rows.drop (p * pp).toNat).take pp.toNat
    | _, _ => rows
  ResponseEnvelope.mk results (ResponseMetadata.mk rows.length pg.page pg.per_page)

/-- Arithmetic core of the slice-length computation, stated without multiplication so
that it is linear. -/
lemma slice_length_eq (n : Nat) (t pp : Int) (ht : 0 ≤ t) (hpp : 0 < pp) :
    ((min pp.toNat (n - t.toNat) : Nat) : Int) = max 0 (min ((n : Int) - t) pp) := by
  omega

/-- C1: for every valid pagination (page ≥ 0, per_page > 0) over a query with `total`
rows, the packaged result list has length `max 0 (min (total - page*per_page) per_page)`
(hence never more than `per_page`), its entries are the ordered rows starting at offset
`page * per_page`, and the metadata total is the unpaginated row count. -/
theorem package_response_paginated_correct {α : Type} (rows : List α) (p pp : Int)
    (hp : 0 ≤ p) (hpp : 0 < pp) :
    (((package_response rows (Pagination.mk (some p) (some pp))).results.length : Int)
        = max 0 (min ((rows.length : Int) - p * pp) pp))
    ∧ (package_response rows (Pagination.mk (some p) (some pp))).results.length ≤ pp.toNat
    ∧ (∀ i : Nat, i < (package_response rows (Pagination.mk (some p) (some pp))).results.length →
        (package_response rows (Pagination.mk (some p) (some pp))).results[i]?
          = rows[(p * pp).toNat + i]?)
    ∧ (package_response rows (Pagination.mk (some p) (some pp))).metadata.total
        = rows.length := by
  have hres : (package_response rows (Pagination.mk (some p) (some pp))).results
      = (rows.drop (p * pp).toNat).take pp.toNat := rfl
  have hlen : (package_response rows (Pagination.mk (some p) (some pp))).results.length
      = min pp.toNat (rows.length - (p * pp).toNat) := by
    rw [hres, List.length_take, List.length_drop]
  refine ⟨?_, ?_, ?_, rfl⟩
  · rw [hlen]
    exact slice_length_eq rows.length (p * pp) pp (mul_nonneg hp (le_of_lt hpp)) hpp
  · rw [hlen]; exact Nat.min_le_left _ _
  · intro i hi
    rw [hlen] at hi
    rw [hres, List.getElem?_take_of_lt (Nat.lt_of_lt_of_le hi (Nat.min_le_left _ _)),
      List.getElem?_drop]

/-- Instantiation of C1 at a concrete table of 13 rows, page 6, page size 2. -/
theorem package_response_paginated_correct_witness :
    (0 : Int) ≤ 6 ∧ (0 : Int) < 2
    ∧ (((package_response (List.range 13) (Pagination.mk (some 6) (some 2))).results.length : Int)
        = max 0 (min ((13 : Int) - 6 * 2) 2)) := by
  refine ⟨by decide, by decide, ?_⟩
  have h := (package_response_paginated_correct (List.range 13) 6 2
    (by decide) (by decide)).1
  simpa using h

/-- C3: constructing a `Pagination` fails with a validation error for every `page < 0`
and for every `per_page ≤ 0`, and succeeds for every `page ≥ 0` with `per_page > 0`. -/
theorem pagination_make_validates (p pp : Int) :
    (p < 0 → Pagination.make (some p) (some pp)
        = Except.error "page parameter must be greater than or equal to zero")
    ∧ (0 ≤ p → pp ≤ 0 → Pagination.make (some p) (some pp)
        = Except.error "per_page parameter must be greater than zero")
    ∧ ((p < 0 ∨ pp ≤ 0) → ∃ e, Pagination.make (some p) (some pp) = Except.error e)
    ∧ (0 ≤ p → 0 < pp → Pagination.make (some p) (some pp)
        = Except.ok (Pagination.mk (some p) (some pp))) := by
  refine ⟨?_, ?_, ?_, ?_⟩
  · intro h
    simp only [Pagination.make, Option.getD_some]
    rw [if_pos h]
  · intro h1 h2
    simp only [Pagination.make, Option.getD_some]
    rw [if_neg (by omega), if_pos h2]
  · intro h
    rcases h with h | h
    · exact ⟨_, by simp only [Pagination.make, Option.getD_some]; rw [if_pos h]⟩
    · by_cases hp : p < 0
      · exact ⟨_, by simp only [Pagination.make, Option.getD_some]; rw [if_pos hp]⟩
      · exact ⟨_, by simp only [Pagination.make, Option.getD_some]
                     rw [if_neg hp, if_pos h]⟩
  · intro h1 h2
    simp only [Pagination.make, Option.getD_some]
    rw [if_neg (by omega), if_neg (by omega)]

/-- Instantiation of C3 at the concrete parameters used by the repository's tests. -/
theorem pagination_make_validates_witness :
    ((-1 : Int) < 0 ∧ Pagination.make (some (-1)) (some 1)
        = Except.error "page parameter must be greater than or equal to zero")
    ∧ ((0 : Int) ≤ 1 ∧ (0 : Int) ≤ 0 ∧ Pagination.make (some 1) (some 0)
        = Except.error "per_page parameter must be greater than zero")
    ∧ ((0 : Int) ≤ 13 ∧ (0 : Int) < 21 ∧ Pagination.make (some 13) (some 21)
        = Except.ok (Pagination.mk (some 13) (some 21))) :=
  ⟨⟨by decide, (pagination_make_validates (-1) 1).1 (by decide)⟩,
   ⟨by decide, by decide, (pagination_make_validates 1 0).2.1 (by decide) (by decide)⟩,
   ⟨by decide, by decide, (pagination_make_validates 13 21).2.2.2 (by decide) (by decide)⟩⟩

/-- C9: when pagination is not requested (a default `Pagination`), the packaged response
contains every row of the query result, its metadata reports the total row count, and the
page and page-size metadata fields are absent. -/
theorem package_response_default_complete {α : Type} (rows : List α) :
    (package_response rows Pagination.default).results = rows
    ∧ (package_response rows Pagination.default).metadata.total = rows.length
    ∧ (package_response rows Pagination.default).metadata.page = none
    ∧ (package_response rows Pagination.default).metadata.per_page = none :=
  ⟨rfl, rfl, rfl, rfl⟩

/-! ### File validation

The module `jobbergate_api/file_validation.py` is not part of the excerpt; only its tests
are. Per the spec (section 4.3) each validator delegates to an existing parser — CPython
compilation for Python source, the YAML loader for YAML documents, the Jinja2
environment for templates — and reports boolean validity. The validators are therefore
modelled parametrically in the underlying parser, and concrete single-purpose checkers
(consistent indentation, balanced brackets, balanced template delimiters — the spec's own
characterisation) instantiate them on the repository's test inputs. -/

/-- Modelled from the spec: `jobbergate_api.file_validation.is_valid_python_file` (absent
from the excerpt) delegates to the existing Python source parser `parseSource` and
reports whether parsing succeeded. -/
def is_valid_python_file {α : Type} (parseSource : String → Option α) (s : String) : Bool :=
  (parseSource s).isSome

/-- Modelled from the spec: `jobbergate_api.file_validation.is_valid_yaml_file` (absent
from the excerpt) delegates to the existing YAML document parser `parseDoc` and reports
whether parsing succeeded. -/
def is_valid_yaml_file {β : Type} (parseDoc : String → Option β) (s : String) : Bool :=
  (parseDoc s).isSome

/-- Modelled from the spec: `jobbergate_api.file_validation.is_valid_jinja2_template`
(absent from the excerpt) delegates to the existing Jinja2 template parser
`parseTemplate` and reports whether parsing succeeded. -/
def is_valid_jinja2_template {γ : Type} (parseTemplate : String → Option γ) (s : String) : Bool :=
  (parseTemplate s).isSome

/-- The opening brace character. -/
def openBrace : Char := Char.ofNat 123

/-- The closing brace character. -/
def closeBrace : Char := Char.ofNat 125

/-- Scanner for Jinja2 expression delimiters: a doubled opening brace enters an
expression, a doubled closing brace leaves it; the template is well delimited when the
scan ends outside an expression. -/
def jinjaScan : List Char → Bool → Bool
  | [], inside => !inside
  | c1 :: c2 :: rest, false =>
      if c1 = openBrace ∧ c2 = openBrace then jinjaScan rest true
      else jinjaScan (c2 :: rest) false
  | c1 :: c2 :: rest, true =>
      if c1 = closeBrace ∧ c2 = closeBrace then jinjaScan rest false
      else jinjaScan (c2 :: rest) true
  | _ :: rest, inside => jinjaScan rest inside

/-- A concrete template-syntax check: balanced template delimiters. -/
def jinjaParses (s : String) : Option Unit :=
  if jinjaScan s.data false then some () else none

/-- Scanner for square brackets with a depth counter: an opener increases the depth, a
closer at depth zero is an error, and the scan must end at depth zero. -/
def bracketScan : List Char → Nat → Bool
  | [], 0 => true
  | [], _ + 1 => false
  | c :: rest, d =>
      if c = '[' then bracketScan rest (d + 1)
      else if c = ']' then
        match d with
        | 0 => false
        | d' + 1 => bracketScan rest d'
      else bracketScan rest d

/-- A concrete structured-document check: balanced square brackets. -/
def yamlParses (s : String) : Option Unit :=
  if bracketScan s.data 0 then some () else none

/-- Leading-space count of a line. -/
def indentOf (l : List Char) : Nat := (l.takeWhile (fun c => c = ' ')).length

/-- Checks consecutive lines: a line ending in a colon opens a block, so the next line
must be indented strictly deeper. -/
def indentLinesOk : List (List Char) → Bool
  | [] => true
  | [_] => true
  | l1 :: l2 :: rest =>
      (if l1.getLast? = some ':' then decide (indentOf l1 < indentOf l2) else true)
        && indentLinesOk (l2 :: rest)

/-- Splits a character stream into its lines at newline characters. -/
def splitLines : List Char → List (List Char)
  | [] => [[]]
  | c :: rest =>
      if c = '\n' then [] :: splitLines rest
      else
        match splitLines rest with
        | [] => [[c]]
        | l :: ls => (c :: l) :: ls

/-- A concrete source-code check: consistently indented source, a block opener being
followed by a deeper-indented line. -/
def pythonParses (s : String) : Option Unit :=
  if indentLinesOk (splitLines s.data) then some () else none

/-- C8: each file-validation function returns true exactly when its underlying parser
succeeds — false on every input the parser rejects, true on every input it accepts. -/
theorem file_validators_follow_their_parsers {α β γ : Type}
    (parseSource : String → Option α) (parseDoc : String → Option β)
    (parseTemplate : String → Option γ) (s : String) :
    (parseSource s = none → is_valid_python_file parseSource s = false)
    ∧ (∀ t, parseSource s = some t → is_valid_python_file parseSource s = true)
    ∧ (parseDoc s = none → is_valid_yaml_file parseDoc s = false)
    ∧ (∀ t, parseDoc s = some t → is_valid_yaml_file parseDoc s = true)
    ∧ (parseTemplate s = none → is_valid_jinja2_template parseTemplate s = false)
    ∧ (∀ t, parseTemplate s = some t → is_valid_jinja2_template parseTemplate s = true) := by
  refine ⟨?_, ?_, ?_, ?_, ?_, ?_⟩ <;>
    first
      | (intro h; simp [is_valid_python_file, is_valid_yaml_file, is_valid_jinja2_template, h])
      | (intro t h; simp [is_valid_python_file, is_valid_yaml_file, is_valid_jinja2_template, h])

/-- Instantiation of C8 on the repository's test inputs: the unbalanced template
"Hello \x7b\x7b name \x7d!" is rejected and the unbalanced document "unbalanced
blackets: ][" is rejected, while their balanced variants are accepted. -/
theorem file_validators_follow_their_parsers_witness :
    is_valid_jinja2_template jinjaParses "Hello \x7b\x7b name \x7d!" = false
    ∧ is_valid_jinja2_template jinjaParses "Hello \x7b\x7b name \x7d\x7d!" = true
    ∧ is_valid_yaml_file yamlParses "unbalanced blackets: ][" = false
    ∧ is_valid_yaml_file yamlParses "balanced blackets: []" = true
    ∧ is_valid_python_file pythonParses "for i in range(10):\nprint(i)" = false
    ∧ is_valid_python_file pythonParses "for i in range(10):\n    print(i)" = true :=
  ⟨(file_validators_follow_their_parsers pythonParses yamlParses jinjaParses
      "Hello \x7b\x7b name \x7d!").2.2.2.2.1 (by decide),
   (file_validators_follow_their_parsers pythonParses yamlParses jinjaParses
      "Hello \x7b\x7b name \x7d\x7d!").2.2.2.2.2 () (by decide),
   (file_validators_follow_their_parsers pythonParses yamlParses jinjaParses
      "unbalanced blackets: ][").2.2.1 (by decide),
   (file_validators_follow_their_parsers pythonParses yamlParses jinjaParses
      "balanced blackets: []").2.2.2.1 () (by decide),
   (file_validators_follow_their_parsers pythonParses yamlParses jinjaParses
      "for i in range(10):\nprint(i)").1 (by decide),
   (file_validators_follow_their_parsers pythonParses yamlParses jinjaParses
      "for i in range(10):\n    print(i)").2.1 () (by decide)⟩

/-! ### Smart-template CRUD service

Embedding of `jobbergate_api/apps/smart_templates/service.py`. A `SmartTemplate` row is
its auto-assigned primary key together with its remaining columns, kept abstract as a
field map (the models/schemas modules are outside the excerpt). The async session is a
state holding the table's rows; an auto-increment counter assigns primary keys. A
request's `.dict(exclude_unset=True)` is the list of its explicitly set fields. -/

/-- A persisted smart-template row: primary key plus its other columns as a field map. -/
structure SmartTemplate where
  id : Nat
  fields : List (String × String)
deriving Repr, DecidableEq

/-- Value of one column of a row. -/
def SmartTemplate.getField (r : SmartTemplate) (k : String) : Option String :=
  r.fields.lookup k

/-- The table state: its rows and the auto-increment counter for primary keys. -/
structure Db where
  rows : List SmartTemplate
  nextId : Nat
deriving Repr, DecidableEq

/-- Invariant of auto-increment keys: every persisted key is below the counter, so the
key assigned next is fresh. -/
def Db.Wf (db : Db) : Prop :=
  ∀ r ∈ db.rows, r.id < db.nextId

/-- Embeds `SmartTemplateService.create` (service.py lines 17-23): builds a row from the
set fields of the incoming request, inserts it, and after the flush/refresh returns the
freshly persisted row carrying its auto-assigned primary key. -/
def create (db : Db) (incoming : List (String × String)) : SmartTemplate × Db :=
  let row : SmartTemplate := SmartTemplate.mk db.nextId incoming
  (row, Db.mk (db.rows ++ [row]) (db.nextId + 1))

/-- Embeds `SmartTemplateService.count` (service.py lines 25-28). -/
def count (db : Db) : Nat := db.rows.length

/-- Embeds `SmartTemplateService.get` (service.py lines 30-35): selects the row whose
primary key matches, or `none`. -/
def get (db : Db) (id : Nat) : Option SmartTemplate :=
  db.rows.find? (fun r => r.id == id)

/-- Embeds `SmartTemplateService.delete` (service.py lines 37-43): looks the row up and,
when it is absent, raises `NoResultFound` before issuing any delete or flush; otherwise
removes the row. The result pairs the raised error, if any, with the resulting state. -/
def delete (db : Db) (id : Nat) : Option String × Db :=
  match get db id with
  | none => (some "SmartTemplate not found", db)
  | some _ => (none, Db.mk (db.rows.filter (fun r => !(r.id == id))) db.nextId)

/-- Embeds `SmartTemplateService.update` (service.py lines 45-52): an UPDATE scoped by
primary key setting exactly the set fields of the incoming request and returning the
updated row; `scalar_one` raises `NoResultFound` when no row matched. -/
def update (db : Db) (id : Nat) (incoming : List (String × String)) :
    Except String (SmartTemplate × Db) :=
  match get db id with
  | none => Except.error "No row was found when one was required"
  | some r =>
      let r2 : SmartTemplate := SmartTemplate.mk r.id (incoming ++ r.fields)
      Except.ok (r2, Db.mk (db.rows.map (fun x => if x.id == id then r2 else x)) db.nextId)

/-- A lookup misses exactly when no row carries the key. -/
lemma get_eq_none_iff (db : Db) (id : Nat) :
    get db id = none ↔ ∀ r ∈ db.rows, r.id ≠ id := by
  simp [get, List.find?_eq_none]

/-- A successful lookup returns a stored row carrying the key. -/
lemma get_some_spec {db : Db} {id : Nat} {r : SmartTemplate}
    (h : get db id = some r) : r ∈ db.rows ∧ r.id = id :=
  ⟨List.mem_of_find?_eq_some h, by simpa using List.find?_some h⟩

/-- A stored row carrying the key makes the lookup succeed. -/
lemma get_isSome_of_mem {db : Db} {id : Nat} {r : SmartTemplate}
    (hr : r ∈ db.rows) (hid : r.id = id) : ∃ r2, get db id = some r2 := by
  have h : (db.rows.find? (fun x => x.id == id)).isSome := by
    rw [List.find?_isSome]
    exact ⟨r, hr, by simp [hid]⟩
  exact Option.isSome_iff_exists.mp h

/-- Replacing the keyed rows of a list makes the keyed lookup return the replacement,
provided some row carried the key. -/
lemma find?_map_replace {l : List SmartTemplate} {id : Nat} {r2 : SmartTemplate}
    (hl : (l.find? (fun x => x.id == id)).isSome) (h2 : r2.id = id) :
    (l.map (fun x => if x.id == id then r2 else x)).find? (fun x => x.id == id)
      = some r2 := by
  induction l with
  | nil => simp at hl
  | cons a t ih =>
    by_cases ha : a.id = id
    · simp [ha, h2]
    · have hpa : ¬ ((a.id == id) = true) := by simp [ha]
      have hhead : (if (a.id == id) then r2 else a) = a := by simp [ha]
      rw [List.map_cons, hhead,
        List.find?_cons_of_neg (p := fun x : SmartTemplate => x.id == id) _ hpa]
      rw [List.find?_cons_of_neg (p := fun x : SmartTemplate => x.id == id) _ hpa] at hl
      exact ih hl

/-- Behaviour of `update` on a present key: it succeeds, stores the updated row, keeps
the primary key, and the new field map is the supplied fields overriding the old ones. -/
lemma update_found {db : Db} {id : Nat} (upd : List (String × String)) {r : SmartTemplate}
    (h : get db id = some r) :
    ∃ r2 db2, update db id upd = Except.ok (r2, db2)
      ∧ get db2 id = some r2
      ∧ r2.id = r.id
      ∧ r2.fields = upd ++ r.fields := by
  have hid : r.id = id := (get_some_spec h).2
  refine ⟨SmartTemplate.mk r.id (upd ++ r.fields),
    Db.mk (db.rows.map
      (fun x => if x.id == id then SmartTemplate.mk r.id (upd ++ r.fields) else x))
      db.nextId, ?_, ?_, rfl, rfl⟩
  · simp only [update, h]
  · have hl : (db.rows.find? (fun x => x.id == id)).isSome := by
      unfold get at h
      rw [h]
      rfl
    exact find?_map_replace hl hid

/-- Behaviour of `delete` on a present key: no error is raised and the key is gone. -/
lemma delete_found {db : Db} {id : Nat} {r : SmartTemplate} (h : get db id = some r) :
    (delete db id).1 = none ∧ get (delete db id).2 id = none := by
  refine ⟨by simp [delete, h], ?_⟩
  simp only [delete, h]
  rw [get, List.find?_eq_none]
  intro x hx
  have hf := (List.mem_filter.mp hx).2
  simp only [Bool.not_eq_true'] at hf
  simp [hf]

/-- C10: for every id with no matching row, `delete` raises its not-found error before
issuing any delete or flush, leaving the database state unchanged. -/
theorem delete_not_found_state_unchanged (db : Db) (id : Nat) (h : get db id = none) :
    delete db id = (some "SmartTemplate not found", db) := by
  simp [delete, h]

/-- Instantiation of C10 on an empty table. -/
theorem delete_not_found_state_unchanged_witness :
    get (Db.mk [] 0) 7 = none
    ∧ delete (Db.mk [] 0) 7 = (some "SmartTemplate not found", Db.mk [] 0) :=
  ⟨rfl, delete_not_found_state_unchanged (Db.mk [] 0) 7 rfl⟩

/-- C2: get, update and delete, all scoped by primary key, signal "not found" as a
distinct error when no row with the id exists, and otherwise return the freshly
persisted row (get and update) or remove the row (delete). -/
theorem keyed_ops_not_found_distinct (db : Db) (id : Nat) (upd : List (String × String)) :
    ((∀ r ∈ db.rows, r.id ≠ id) →
        get db id = none
        ∧ update db id upd = Except.error "No row was found when one was required"
        ∧ (delete db id).1 = some "SmartTemplate not found")
    ∧ ((∃ r ∈ db.rows, r.id = id) →
        (∃ r, get db id = some r ∧ r ∈ db.rows ∧ r.id = id)
        ∧ (∃ r2 db2, update db id upd = Except.ok (r2, db2) ∧ get db2 id = some r2)
        ∧ ((delete db id).1 = none ∧ get (delete db id).2 id = none)) := by
  constructor
  · intro habs
    have hg : get db id = none := (get_eq_none_iff db id).mpr habs
    exact ⟨hg, by simp [update, hg], by simp [delete, hg]⟩
  · rintro ⟨r, hr, hid⟩
    obtain ⟨r0, hr0⟩ := get_isSome_of_mem hr hid
    have hspec := get_some_spec hr0
    obtain ⟨r2, db2, hu1, hu2, _, _⟩ := update_found upd hr0
    exact ⟨⟨r0, hr0, hspec.1, hspec.2⟩, ⟨r2, db2, hu1, hu2⟩, delete_found hr0⟩

/-- Instantiation of C2 on a one-row table, at an absent and at a present key. -/
theorem keyed_ops_not_found_distinct_witness :
    update (Db.mk [SmartTemplate.mk 1 [("a", "1")]] 2) 5 []
        = Except.error "No row was found when one was required"
    ∧ (delete (Db.mk [SmartTemplate.mk 1 [("a", "1")]] 2) 1).1 = none :=
  ⟨((keyed_ops_not_found_distinct (Db.mk [SmartTemplate.mk 1 [("a", "1")]] 2) 5 []).1
      (by decide)).2.1,
   (((keyed_ops_not_found_distinct (Db.mk [SmartTemplate.mk 1 [("a", "1")]] 2) 1 []).2
      ⟨SmartTemplate.mk 1 [("a", "1")], by decide, rfl⟩).2.2).1⟩

/-- C4: create followed by get at the returned row's id yields the very record create
returned; delete of an existing id followed by get at that id yields absent. -/
theorem create_get_delete_round_trip (db : Db) (incoming : List (String × String))
    (hwf : db.Wf) :
    get (create db incoming).2 (create db incoming).1.id = some (create db incoming).1
    ∧ (∀ id r, get db id = some r → get (delete db id).2 id = none) := by
  constructor
  · show get (Db.mk (db.rows ++ [SmartTemplate.mk db.nextId incoming]) (db.nextId + 1))
        db.nextId = some (SmartTemplate.mk db.nextId incoming)
    unfold get
    rw [List.find?_append]
    have h1 : db.rows.find? (fun r => r.id == db.nextId) = none := by
      rw [List.find?_eq_none]
      intro x hx
      have := hwf x hx
      simp only [beq_iff_eq]
      omega
    rw [h1]
    simp
  · intro id r h
    exact (delete_found h).2

/-- Instantiation of C4 on an empty table. -/
theorem create_get_delete_round_trip_witness :
    Db.Wf (Db.mk [] 0)
    ∧ get (create (Db.mk [] 0) [("name", "x")]).2 (create (Db.mk [] 0) [("name", "x")]).1.id
        = some (create (Db.mk [] 0) [("name", "x")]).1 := by
  have hwf : Db.Wf (Db.mk [] 0) := by
    intro r hr
    simp at hr
  exact ⟨hwf, (create_get_delete_round_trip (Db.mk [] 0) [("name", "x")] hwf).1⟩

/-- C5: update changes only the fields explicitly supplied in the request — every field
absent from the update payload keeps its value — while supplied fields take the supplied
values; the updated row is the one stored afterwards. -/
theorem update_changes_only_supplied_fields (db : Db) (id : Nat)
    (upd : List (String × String)) (r : SmartTemplate) (h : get db id = some r) :
    ∃ r2 db2, update db id upd = Except.ok (r2, db2)
      ∧ get db2 id = some r2
      ∧ r2.id = r.id
      ∧ (∀ k, upd.lookup k = none → r2.getField k = r.getField k)
      ∧ (∀ k v, upd.lookup k = some v → r2.getField k = some v) := by
  obtain ⟨r2, db2, h1, h2, h3, h4⟩ := update_found upd h
  refine ⟨r2, db2, h1, h2, h3, ?_, ?_⟩
  · intro k hk
    simp [SmartTemplate.getField, h4, List.lookup_append, hk]
  · intro k v hk
    simp [SmartTemplate.getField, h4, List.lookup_append, hk]

/-- Instantiation of C5: updating field "a" of a row leaves its field "b" unchanged. -/
theorem update_changes_only_supplied_fields_witness :
    get (Db.mk [SmartTemplate.mk 1 [("a", "1"), ("b", "2")]] 2) 1
        = some (SmartTemplate.mk 1 [("a", "1"), ("b", "2")])
    ∧ ∃ r2 db2,
        update (Db.mk [SmartTemplate.mk 1 [("a", "1"), ("b", "2")]] 2) 1 [("a", "9")]
          = Except.ok (r2, db2)
        ∧ r2.getField "b" = some "2"
        ∧ r2.getField "a" = some "9" := by
  have h : get (Db.mk [SmartTemplate.mk 1 [("a", "1"), ("b", "2")]] 2) 1
      = some (SmartTemplate.mk 1 [("a", "1"), ("b", "2")]) := by decide
  obtain ⟨r2, db2, h1, _, _, h4, h5⟩ :=
    update_changes_only_supplied_fields _ 1 [("a", "9")] _ h
  exact ⟨h, r2, db2, h1, h4 "b" (by decide), h5 "a" "9" (by decide)⟩

/-! ### CLI application subcommands

Embedding of `jobbergate_cli/subapps/applications/app.py`. The HTTP client and the
tarball builder are abstracted as their outcomes; what is embedded is the command's
control flow and the request parameters it constructs. -/

/-- The sort-order flag of the `list` subcommand. -/
inductive SortOrder
  | ASCENDING
  | DESCENDING
  | UNSORTED
deriving Repr, DecidableEq

/-- A request parameter value: a boolean or a string. -/
inductive ParamValue
  | boolVal (b : Bool)
  | strVal (s : String)
deriving Repr, DecidableEq

/-- Embeds the request-parameter construction of `list_all` (app.py lines 82-91). The
source computes `SortOrder is SortOrder.ASCENDING` — a Python identity test between the
enum class itself and one of its members, which is always false — so whenever a sort
order is requested the embedded code sends `sort_ascending = false`; the embedding keeps
that behaviour faithfully. -/
def listParams (showAll userOnly : Bool) (search : Option String)
    (sortOrder : SortOrder) (sortField : Option String) : List (String × ParamValue) :=
  let base := [("all", ParamValue.boolVal showAll), ("user", ParamValue.boolVal userOnly)]
  let base := match search with
    | some s => base ++ [("search", ParamValue.strVal s)]
    | none => base
  let base := if sortOrder ≠ SortOrder.UNSORTED
    then base ++ [("sort_ascending", ParamValue.boolVal false)]
    else base
  match sortField with
  | some f => base ++ [("sort_field", ParamValue.strVal f)]
  | none => base

/-- What the `list_all` command was specified to send: `sort_ascending` mirrors the
requested sort order. This definition follows the spec's words ("flags mapping directly
to request parameters") for comparison against `listParams`, which embeds the source. -/
def listParamsSpec (showAll userOnly : Bool) (search : Option String)
    (sortOrder : SortOrder) (sortField : Option String) : List (String × ParamValue) :=
  let base := [("all", ParamValue.boolVal showAll), ("user", ParamValue.boolVal userOnly)]
  let base := match search with
    | some s => base ++ [("search", ParamValue.strVal s)]
    | none => base
  let base := if sortOrder ≠ SortOrder.UNSORTED
    then base ++ [("sort_ascending", ParamValue.boolVal (sortOrder = SortOrder.ASCENDING))]
    else base
  match sortField with
  | some f => base ++ [("sort_field", ParamValue.strVal f)]
  | none => base

/-- C7 (against the code as written): with the sort-order flag set to ASCENDING the
outgoing request carries `sort_ascending = false`, not `true` — the source compares the
`SortOrder` class itself instead of the `sort_order` parameter — diverging from the
specified direct flag-to-parameter mapping at this input. -/
theorem list_params_sort_ascending_slip :
    ("sort_ascending", ParamValue.boolVal false)
        ∈ listParams false false none SortOrder.ASCENDING none
    ∧ ("sort_ascending", ParamValue.boolVal true)
        ∉ listParams false false none SortOrder.ASCENDING none
    ∧ ("sort_ascending", ParamValue.boolVal true)
        ∈ listParamsSpec false false none SortOrder.ASCENDING none
    ∧ listParams false false none SortOrder.ASCENDING none
        ≠ listParamsSpec false false none SortOrder.ASCENDING none
    ∧ ("sort_ascending", ParamValue.boolVal false)
        ∈ listParams false false none SortOrder.DESCENDING none := by
  decide

/-- One step of the CLI `create` command, as observed from outside: HTTP requests made,
warnings printed, and results rendered. -/
inductive CliAction
  | request (method : String) (path : String)
  | warnMsg (subject : String)
  | renderResult (title : String) (result : List (String × String))
deriving Repr, DecidableEq

/-- Embeds the CLI `create` command control flow (app.py lines 196-245). `createResult`
is the outcome of the POST creating the resource (the created record on success — the
command aborts when it fails), and `uploadSucceeds` is the outcome of the follow-on file
upload. The value is the aborting error or the list of observable actions performed. -/
def createCommand (createResult : Except String (List (String × String)))
    (uploadSucceeds : Bool) : Except String (List CliAction) :=
  match createResult with
  | Except.error e => Except.error e
  | Except.ok result =>
      let requests := [CliAction.request "POST" "/jobbergate/applications",
                       CliAction.request "POST" "/jobbergate/applications/id/upload"]
      if uploadSucceeds then
        Except.ok (requests ++ [CliAction.renderResult "Created Application"
          (result ++ [("application_uploaded", "true")])])
      else
        Except.ok (requests ++ [CliAction.warnMsg "File upload failed",
          CliAction.renderResult "Created Application" result])

/-- C6: when resource creation succeeds but the follow-on upload fails, the create
command is not aborted, emits a warning, still renders the created resource (without an
uploaded marker), and issues no rollback: no DELETE request ever occurs. -/
theorem create_upload_failure_non_fatal (result : List (String × String)) :
    ∃ acts, createCommand (Except.ok result) false = Except.ok acts
      ∧ CliAction.warnMsg "File upload failed" ∈ acts
      ∧ CliAction.renderResult "Created Application" result ∈ acts
      ∧ ∀ m p, CliAction.request m p ∈ acts → m ≠ "DELETE" := by
  refine ⟨[CliAction.request "POST" "/jobbergate/applications",
    CliAction.request "POST" "/jobbergate/applications/id/upload",
    CliAction.warnMsg "File upload failed",
    CliAction.renderResult "Created Application" result], rfl, by simp, by simp, ?_⟩
  intro m p hm
  simp only [List.mem_cons, List.not_mem_nil, or_false] at hm
  rcases hm with h | h | h | h <;>
    first
      | (cases h; decide)
      | (exact absurd h (by simp))

end Jobbergate
